import Mathlib

/-!
Verification of the bootstrap / capability-dispatch layer of the LAMMPS
simulation engine: the package registry (`match_style` / `lookup`), the
suffix resolver, the accelerator command-line configuration parser, and
the engine bootstrap state, as exercised by
`src/unittest/cplusplus/lammps-class.cpp`.

The repository snapshot contains only the unit test for the `LAMMPS`
class; the class implementation itself (constructor, `match_style`,
argument parsing) is not present, so those operations are modelled from
the natural-language specification, with the concrete registry contents
and configuration outcomes fixed by the expectations of the unit test.
-/

set_option autoImplicit false

namespace LammpsSpec

/-- Modelled from the spec: the Package Registry (§4.1), the static
read-only mapping from (style category, style keyword) to owning package
name that backs `LAMMPS::match_style`.  `match_style` is not in the
source snapshot; the entries for category `"atom"` are fixed by the
expectations of the `LAMMPS_plain.TestStyles` unit test. -/
def style_registry : List (String × String × String) :=
  [ ("atom", "angle",        "MOLECULE"),
    ("atom", "bond",         "MOLECULE"),
    ("atom", "full",         "MOLECULE"),
    ("atom", "molecular",    "MOLECULE"),
    ("atom", "template",     "MOLECULE"),
    ("atom", "angle/kk",     "KOKKOS"),
    ("atom", "bond/kk",      "KOKKOS"),
    ("atom", "full/kk",      "KOKKOS"),
    ("atom", "molecular/kk", "KOKKOS"),
    ("atom", "hybrid/kk",    "KOKKOS"),
    ("atom", "dipole",       "DIPOLE"),
    ("atom", "peri",         "PERI"),
    ("atom", "spin",         "SPIN"),
    ("atom", "wavepacket",   "USER-AWPMD"),
    ("atom", "dpd",          "USER-DPD"),
    ("atom", "edpd",         "USER-MESODPD"),
    ("atom", "mdpd",         "USER-MESODPD"),
    ("atom", "tdpd",         "USER-MESODPD"),
    ("atom", "smd",          "USER-SMD"),
    ("atom", "meso",         "USER-SPH") ]

/-- Modelled from the spec: `lookup(category, keyword) -> PackageName |
not-found` (§4.1), the pure registry lookup behind `LAMMPS::match_style`
(absent from the source snapshot).  Case-sensitive exact match; `none`
is the not-found sentinel (a normal value, not an error). -/
def lookup (category keyword : String) : Option String :=
  (style_registry.find? (fun e => e.1 == category && e.2.1 == keyword)).map
    (fun e => e.2.2)

/-- A configuration record as produced by the accelerator configuration
parser, holding the `SuffixState` fields (`suffix_enable`, `suffix`,
`suffix2`), the package-invocation counter `num_package`, the
accelerator-backend toggle, and the help flag, mirroring the `LAMMPS`
members checked by the unit tests. -/
structure Config where
  suffix_enable : Bool
  suffix : Option String
  suffix2 : Option String
  num_package : Nat
  kokkos_on : Bool
  help : Bool
deriving Repr, DecidableEq

/-- The configuration before any command-line token is consumed:
suffixes disabled, no packages invoked, no backend, no help request. -/
def initConfig : Config :=
  { suffix_enable := false, suffix := none, suffix2 := none,
    num_package := 0, kokkos_on := false, help := false }

/-- Whether a style keyword already contains the suffix separator, i.e.
is a variant name such as `"full/kk"` rather than a base keyword. -/
def hasSuffixSep (s : String) : Bool :=
  s.data.contains '/'

/-- Modelled from the spec: the Suffix Resolver (§4.2), absent from the
source snapshot.  `resolve(category, baseKeyword)` produces the ordered
candidate list: a keyword already containing the suffix separator is
returned unchanged; with suffixes disabled the only candidate is the
base keyword; otherwise the primary-suffixed variant, then the
secondary-suffixed variant if a secondary suffix is set, then the base
keyword as final fallback. -/
def resolve (cfg : Config) (category baseKeyword : String) : List String :=
  let _ := category
  if hasSuffixSep baseKeyword then [baseKeyword]
  else if cfg.suffix_enable then
    match cfg.suffix, cfg.suffix2 with
    | some s1, some s2 =>
        [baseKeyword ++ "/" ++ s1, baseKeyword ++ "/" ++ s2, baseKeyword]
    | some s1, none => [baseKeyword ++ "/" ++ s1, baseKeyword]
    | none, _ => [baseKeyword]
  else [baseKeyword]

/-- Errors raised by the accelerator configuration parser (§7):
malformed or missing flag arguments, or a request for a package or
backend that is not compiled into this build.  The payload names the
offending flag or package. -/
inductive ParseError where
  | configSyntax : String → ParseError
  | unavailablePackage : String → ParseError
deriving Repr, DecidableEq

/-- A command-line token is a flag when it begins with a dash. -/
def isFlag (t : String) : Bool :=
  match t.data with
  | [] => false
  | c :: _ => c == '-'

/-- Reads a run of decimal digits as a number, failing on any
non-digit character. -/
def natOfDigits : List Char → Nat → Option Nat
  | [], acc => some acc
  | c :: cs, acc =>
      if 48 ≤ c.toNat && c.toNat ≤ 57 then
        natOfDigits cs (acc * 10 + (c.toNat - 48))
      else none

/-- Numeric value of a command-line token, `none` when the token is
empty or not entirely decimal digits. -/
def tokenNat? (t : String) : Option Nat :=
  if t.data.isEmpty then none else natOfDigits t.data 0

/-- Parser mode while scanning the argument list: either at the top
level expecting a flag, or inside the argument window of a flag that
consumes following tokens (`-sf` one or two suffixes, `-pk` a package
name then package args, `-k` an on/off token then sub-mode tokens with
`t <threadcount>`, and the single-argument output flags). -/
inductive Mode where
  | top
  | afterSf1
  | afterSf2
  | afterPk
  | skipPk
  | afterK
  | skipK
  | afterKT
  | skipOne
deriving Repr, DecidableEq

/-- Dispatch on a flag token seen at the top level (or at the end of an
optional argument window): record a help request, or enter the argument
window of the recognized flag; unrecognized flags and stray tokens are
out of scope and skipped. -/
def flagStep (cfg : Config) (t : String) : Config × Mode :=
  if t = "-h" then ({ cfg with help := true }, Mode.top)
  else if t = "-sf" then (cfg, Mode.afterSf1)
  else if t = "-pk" then (cfg, Mode.afterPk)
  else if t = "-k" then (cfg, Mode.afterK)
  else if t = "-log" || t = "-echo" || t = "-screen" then (cfg, Mode.skipOne)
  else (cfg, Mode.top)

/-- Modelled from the spec: the Accelerator Configuration parser (§4.3,
§6), absent from the source snapshot.  Consumes the flat token list one
token per step; `-sf s1 [s2]` installs the suffix state, each
`-pk name args...` occurrence validates `name` against the installed
package set and increments `num_package`, `-k on|off [t n] [...]`
toggles the accelerator backend (validating that the KOKKOS package is
installed and that a thread count after `t` is a positive number), and
malformed flags fail fast with a `ParseError` naming the flag. -/
def parseLoop (installed : String → Bool) :
    Mode → Config → List String → Except ParseError Config
  | Mode.top, cfg, [] => Except.ok cfg
  | Mode.top, cfg, t :: ts =>
      let s := flagStep cfg t
      parseLoop installed s.2 s.1 ts
  | Mode.afterSf1, _, [] => Except.error (ParseError.configSyntax "-sf")
  | Mode.afterSf1, cfg, t :: ts =>
      if isFlag t then Except.error (ParseError.configSyntax "-sf")
      else
        parseLoop installed Mode.afterSf2
          { cfg with suffix_enable := true, suffix := some t, suffix2 := none } ts
  | Mode.afterSf2, cfg, [] => Except.ok cfg
  | Mode.afterSf2, cfg, t :: ts =>
      if isFlag t then
        let s := flagStep cfg t
        parseLoop installed s.2 s.1 ts
      else parseLoop installed Mode.top { cfg with suffix2 := some t } ts
  | Mode.afterPk, _, [] => Except.error (ParseError.configSyntax "-pk")
  | Mode.afterPk, cfg, t :: ts =>
      if isFlag t then Except.error (ParseError.configSyntax "-pk")
      else if installed t then
        parseLoop installed Mode.skipPk
          { cfg with num_package := cfg.num_package + 1 } ts
      else Except.error (ParseError.unavailablePackage t)
  | Mode.skipPk, cfg, [] => Except.ok cfg
  | Mode.skipPk, cfg, t :: ts =>
      if isFlag t then
        let s := flagStep cfg t
        parseLoop installed s.2 s.1 ts
      else parseLoop installed Mode.skipPk cfg ts
  | Mode.afterK, _, [] => Except.error (ParseError.configSyntax "-k")
  | Mode.afterK, cfg, t :: ts =>
      if t = "on" then
        if installed "KOKKOS" then
          parseLoop installed Mode.skipK { cfg with kokkos_on := true } ts
        else Except.error (ParseError.unavailablePackage "KOKKOS")
      else if t = "off" then
        parseLoop installed Mode.skipK { cfg with kokkos_on := false } ts
      else Except.error (ParseError.configSyntax "-k")
  | Mode.skipK, cfg, [] => Except.ok cfg
  | Mode.skipK, cfg, t :: ts =>
      if t = "t" then parseLoop installed Mode.afterKT cfg ts
      else if isFlag t then
        let s := flagStep cfg t
        parseLoop installed s.2 s.1 ts
      else parseLoop installed Mode.skipK cfg ts
  | Mode.afterKT, _, [] => Except.error (ParseError.configSyntax "-k")
  | Mode.afterKT, cfg, t :: ts =>
      match tokenNat? t with
      | some n =>
          if 0 < n then parseLoop installed Mode.skipK cfg ts
          else Except.error (ParseError.configSyntax "-k")
      | none => Except.error (ParseError.configSyntax "-k")
  | Mode.skipOne, cfg, [] => Except.ok cfg
  | Mode.skipOne, cfg, _ :: ts => parseLoop installed Mode.top cfg ts

/-- First line of the product banner printed by the `-h` help output;
the unit test checks the output starts with this text.  Modelled from
the spec: the version text is not observable from the snapshot. -/
def bannerLine1 : String :=
  "Large-scale Atomic/Molecular Massively Parallel Simulator - LAMMPS version"

/-- Second line of the two-line product banner.  Modelled from the
spec: its exact text is not observable from the snapshot. -/
def bannerLine2 : String :=
  "Git info (unknown)"

/-- The fixed two-line product banner that opens the help output. -/
def productBanner : String :=
  "\n" ++ bannerLine1 ++ "\n" ++ bannerLine2 ++ "\n"

/-- Modelled from the spec: the fixed usage banner printed for `-h`,
beginning with the two-line product banner (§6). -/
def helpMessage : String :=
  productBanner ++ "\nUsage example: lmp -log none -echo both -nocite\n"

/-- The observable state of a constructed `LAMMPS` engine instance:
the parsed configuration, the executable name, what was printed to the
screen, one flag per mandatory subsystem pointer (`true` means
non-null), and the three accelerator-context pointers checked by the
unit tests (`kokkos`, `atomKK`, `memoryKK`). -/
structure EngineState where
  cfg : Config
  exename : String
  screen_output : String
  memory : Bool
  error : Bool
  «universe» : Bool
  input : Bool
  atom : Bool
  update : Bool
  neighbor : Bool
  comm : Bool
  domain : Bool
  force : Bool
  modify : Bool
  group : Bool
  output : Bool
  timer : Bool
  kokkos : Bool
  atomKK : Bool
  memoryKK : Bool
deriving Repr, DecidableEq

/-- Modelled from the spec: the Engine Bootstrap orchestrator (§4.4),
absent from the source snapshot.  Parses the argument vector (after the
executable name); a parse failure is fatal before any subsystem is
constructed; a help request prints the usage banner and constructs no
subsystem; otherwise the `Ready` state has every mandatory subsystem
constructed and the accelerator-context objects constructed exactly
when the backend was enabled with `-k on`. -/
def bootstrap (installed : String → Bool) (argv : List String) :
    Except ParseError EngineState :=
  let exename := argv.headD ""
  match parseLoop installed Mode.top initConfig (argv.drop 1) with
  | Except.error e => Except.error e
  | Except.ok cfg =>
      if cfg.help then
        Except.ok
          { cfg := cfg, exename := exename, screen_output := helpMessage,
            memory := false, error := false, «universe» := false,
            input := false, atom := false, update := false, neighbor := false,
            comm := false, domain := false, force := false, modify := false,
            group := false, output := false, timer := false,
            kokkos := false, atomKK := false, memoryKK := false }
      else
        Except.ok
          { cfg := cfg, exename := exename, screen_output := "",
            memory := true, error := true, «universe» := true,
            input := true, atom := true, update := true, neighbor := true,
            comm := true, domain := true, force := true, modify := true,
            group := true, output := true, timer := true,
            kokkos := cfg.kokkos_on, atomKK := cfg.kokkos_on,
            memoryKK := cfg.kokkos_on }

/-- Teardown of an engine instance, modelled as the number of
subsystem objects it must release: destruction after `-h` (no
subsystem constructed) performs zero releases, i.e. is a no-op. -/
def destroy (st : EngineState) : Nat :=
  List.count true
    [st.memory, st.error, st.«universe», st.input, st.atom, st.update,
     st.neighbor, st.comm, st.domain, st.force, st.modify, st.group,
     st.output, st.timer, st.kokkos, st.atomKK, st.memoryKK]

/-- Sample installed-package set used to instantiate the theorems on
concrete inputs: the unit tests run the OpenMP fixture when `USER-OMP`
is installed and the Kokkos fixture when `KOKKOS` is installed. -/
def installedSample (name : String) : Bool :=
  List.contains ["omp", "USER-OMP", "kk", "KOKKOS"] name

/-- The `SuffixState` invariant (§3): the enable flag is true iff at
least one suffix token is set, and a secondary suffix is only ever set
together with a primary one.  (That at most two suffix tokens are
tracked is structural: `Config` holds exactly the fields `suffix` and
`suffix2`.) -/
def SuffixInv (c : Config) : Prop :=
  (c.suffix_enable = true ↔ c.suffix ≠ none) ∧
  (c.suffix2 ≠ none → c.suffix ≠ none)

/-- Argument list consisting of `n` repetitions of the flag
`-pk name` (with no package-specific arguments). -/
def pkRepeat (name : String) : Nat → List String
  | 0 => []
  | n + 1 => "-pk" :: name :: pkRepeat name n

/-- The engine state produced by a bootstrap with no accelerator
flags: default configuration, every mandatory subsystem constructed, no
accelerator-context objects. -/
def plainReadyState : EngineState :=
  { cfg := initConfig, exename := "LAMMPS_test", screen_output := "",
    memory := true, error := true, «universe» := true, input := true,
    atom := true, update := true, neighbor := true, comm := true,
    domain := true, force := true, modify := true, group := true,
    output := true, timer := true,
    kokkos := false, atomKK := false, memoryKK := false }

/-- C1: for a keyword `k` with no suffix separator, `resolve` returns
exactly `[k]` when suffixes are disabled, and exactly
`[k ++ "/" ++ s1, k ++ "/" ++ s2, k]` in that order when primary
suffix `s1` and secondary suffix `s2` are enabled; a keyword that
already contains a suffix separator is returned unchanged. -/
theorem resolve_candidates (cfg : Config) (category k s1 s2 : String)
    (hk : hasSuffixSep k = false) :
    (cfg.suffix_enable = false → resolve cfg category k = [k]) ∧
    (cfg.suffix_enable = true → cfg.suffix = some s1 → cfg.suffix2 = some s2 →
      resolve cfg category k = [k ++ "/" ++ s1, k ++ "/" ++ s2, k]) ∧
    (∀ k2 : String, hasSuffixSep k2 = true → resolve cfg category k2 = [k2]) := by
  refine ⟨fun hd => ?_, fun he h1 h2 => ?_, fun k2 h2 => ?_⟩ <;>
    simp [resolve, hk, *]

/-- Witness for `resolve_candidates` at a concrete enabled suffix
state. -/
theorem resolve_candidates_witness :
    resolve
        { suffix_enable := true, suffix := some "kk", suffix2 := some "omp",
          num_package := 0, kokkos_on := false, help := false }
        "atom" "full" = ["full/kk", "full/omp", "full"] :=
  (resolve_candidates
      { suffix_enable := true, suffix := some "kk", suffix2 := some "omp",
        num_package := 0, kokkos_on := false, help := false }
      "atom" "full" "kk" "omp" (by decide)).2.1 rfl rfl rfl

/-- C2: the registry's `"atom"` category maps `"full"` to `MOLECULE`
and `"dipole"` to `DIPOLE`, has no entry for the core style
`"atomic"`, and maps the three distinct keywords `"edpd"`, `"mdpd"`,
`"tdpd"` all to the package `USER-MESODPD`. -/
theorem lookup_atom_examples :
    lookup "atom" "full" = some "MOLECULE" ∧
    lookup "atom" "dipole" = some "DIPOLE" ∧
    lookup "atom" "atomic" = none ∧
    lookup "atom" "edpd" = some "USER-MESODPD" ∧
    lookup "atom" "mdpd" = some "USER-MESODPD" ∧
    lookup "atom" "tdpd" = some "USER-MESODPD" ∧
    ("edpd" : String) ≠ "mdpd" ∧ ("edpd" : String) ≠ "tdpd" ∧
    ("mdpd" : String) ≠ "tdpd" := by decide

/-- C9: the registry itself carries entries for the `/kk`-suffixed
variants of `angle`, `bond`, `full`, `molecular` and `hybrid`, all
owned by the `KOKKOS` package, even though the unsuffixed keywords map
to `MOLECULE` (or, for `hybrid`, to not-found). -/
theorem lookup_suffixed_kokkos :
    lookup "atom" ("angle" ++ "/kk") = some "KOKKOS" ∧
    lookup "atom" ("bond" ++ "/kk") = some "KOKKOS" ∧
    lookup "atom" ("full" ++ "/kk") = some "KOKKOS" ∧
    lookup "atom" ("molecular" ++ "/kk") = some "KOKKOS" ∧
    lookup "atom" ("hybrid" ++ "/kk") = some "KOKKOS" ∧
    lookup "atom" "angle" = some "MOLECULE" ∧
    lookup "atom" "full" = some "MOLECULE" ∧
    lookup "atom" "hybrid" = none := by decide

/-- C4: bootstrapping with no accelerator flags (the plain fixture's
argument vector) leaves the suffix state disabled with both suffix
tokens null; bootstrapping with `-sf omp` enables it with primary
suffix `"omp"` and no secondary suffix. -/
theorem bootstrap_suffix_state :
    ((bootstrap installedSample
        ["LAMMPS_test", "-log", "none", "-echo", "both", "-nocite"]).map
      (fun st => (st.cfg.suffix_enable, st.cfg.suffix, st.cfg.suffix2)) =
      Except.ok (false, none, none)) ∧
    ((bootstrap installedSample ["LAMMPS_test", "-sf", "omp"]).map
      (fun st => (st.cfg.suffix_enable, st.cfg.suffix, st.cfg.suffix2)) =
      Except.ok (true, some "omp", none)) :=
  ⟨rfl, rfl⟩

/-- C10: bootstrapping with `-k on t 2 -sf kk` and no `-pk` flag (the
Kokkos fixture's argument vector) enables the accelerator backend but
leaves the package-invocation counter `num_package` at 0. -/
theorem kokkos_no_package_invocation :
    (bootstrap installedSample
        ["LAMMPS_test", "-log", "none", "-echo", "none", "-screen", "none",
         "-k", "on", "t", "2", "-sf", "kk"]).map
      (fun st => (st.cfg.num_package, st.cfg.kokkos_on, st.kokkos)) =
      Except.ok (0, true, true) := rfl

/-- C7: the `-h` flag short-circuits bootstrap: the screen output is
the fixed usage banner beginning with the two-line product banner, no
mandatory subsystem and no accelerator-context object is constructed,
and destroying the instance afterwards releases nothing (a no-op). -/
theorem help_flag_short_circuit :
    ∃ st, bootstrap installedSample ["LAMMPS_test", "-h"] = Except.ok st ∧
      st.screen_output = helpMessage ∧
      helpMessage =
        "\n" ++ bannerLine1 ++ "\n" ++ bannerLine2 ++ "\n" ++
          "\nUsage example: lmp -log none -echo both -nocite\n" ∧
      st.memory = false ∧ st.error = false ∧ st.«universe» = false ∧
      st.input = false ∧ st.atom = false ∧ st.update = false ∧
      st.neighbor = false ∧ st.comm = false ∧ st.domain = false ∧
      st.force = false ∧ st.modify = false ∧ st.group = false ∧
      st.output = false ∧ st.timer = false ∧
      st.kokkos = false ∧ st.atomKK = false ∧ st.memoryKK = false ∧
      destroy st = 0 := by
  refine ⟨_, rfl, rfl, rfl, ?_⟩
  repeat constructor

/-- C3: registry lookup is total and deterministic — for every
(category, keyword) pair it returns a plain `Option` value (either
not-found or some package), and it returns the not-found sentinel
`none` exactly when no registry entry has that category and keyword.
Determinism is definitional: `lookup` is a pure function of its
arguments. -/
theorem lookup_total_not_found (category keyword : String) :
    (lookup category keyword = none ∨
      ∃ p, lookup category keyword = some p) ∧
    (lookup category keyword = none ↔
      ∀ p, (category, keyword, p) ∉ style_registry) := by
  constructor
  · cases lookup category keyword with
    | none => exact Or.inl rfl
    | some p => exact Or.inr ⟨p, rfl⟩
  · rw [lookup, Option.map_eq_none', List.find?_eq_none]
    constructor
    · intro h p hp
      have h2 := h _ hp
      simp at h2
    · intro h e he hpred
      obtain ⟨a, b, p⟩ := e
      simp at hpred
      obtain ⟨rfl, rfl⟩ := hpred
      exact h p he

/-- C8: after a successful bootstrap that is not a help request (the
`Ready` state), every mandatory subsystem pointer is non-null, and the
accelerator-context objects `kokkos`, `atomKK`, `memoryKK` are
non-null exactly when the accelerator backend was enabled with
`-k on`. -/
theorem ready_state_subsystems (installed : String → Bool)
    (argv : List String) (st : EngineState)
    (h : bootstrap installed argv = Except.ok st)
    (hready : st.cfg.help = false) :
    (st.memory = true ∧ st.error = true ∧ st.«universe» = true ∧
     st.input = true ∧ st.atom = true ∧ st.update = true ∧
     st.neighbor = true ∧ st.comm = true ∧ st.domain = true ∧
     st.force = true ∧ st.modify = true ∧ st.group = true ∧
     st.output = true ∧ st.timer = true) ∧
    (st.kokkos = st.cfg.kokkos_on ∧ st.atomKK = st.cfg.kokkos_on ∧
     st.memoryKK = st.cfg.kokkos_on) := by
  unfold bootstrap at h
  cases hp : parseLoop installed Mode.top initConfig (argv.drop 1) with
  | error e => rw [hp] at h; exact absurd h (by simp)
  | ok cfg =>
      rw [hp] at h
      dsimp only at h
      by_cases hh : cfg.help = true
      · rw [if_pos hh] at h
        injection h with h2
        subst h2
        simp at hready
        exact absurd hh (by simp [hready])
      · rw [if_neg hh] at h
        injection h with h2
        subst h2
        simp

/-- Witness for `ready_state_subsystems`: the plain bootstrap with no
flags yields the ready state with all subsystems constructed and no
accelerator-context objects. -/
theorem ready_state_subsystems_witness :
    bootstrap installedSample ["LAMMPS_test"] = Except.ok plainReadyState ∧
    ((plainReadyState.memory = true ∧ plainReadyState.error = true ∧
      plainReadyState.«universe» = true ∧ plainReadyState.input = true ∧
      plainReadyState.atom = true ∧ plainReadyState.update = true ∧
      plainReadyState.neighbor = true ∧ plainReadyState.comm = true ∧
      plainReadyState.domain = true ∧ plainReadyState.force = true ∧
      plainReadyState.modify = true ∧ plainReadyState.group = true ∧
      plainReadyState.output = true ∧ plainReadyState.timer = true) ∧
     (plainReadyState.kokkos = plainReadyState.cfg.kokkos_on ∧
      plainReadyState.atomKK = plainReadyState.cfg.kokkos_on ∧
      plainReadyState.memoryKK = plainReadyState.cfg.kokkos_on)) :=
  ⟨rfl, ready_state_subsystems installedSample ["LAMMPS_test"]
    plainReadyState rfl rfl⟩

/-- Top-level flag dispatch never changes the suffix fields, so it
preserves the suffix-state invariant. -/
theorem flagStep_inv (cfg : Config) (t : String) (h : SuffixInv cfg) :
    SuffixInv (flagStep cfg t).1 := by
  unfold flagStep
  split_ifs <;> simpa [SuffixInv] using h

/-- Top-level flag dispatch never enters the optional-second-suffix
window directly. -/
theorem flagStep_snd_ne_afterSf2 (cfg : Config) (t : String) :
    (flagStep cfg t).2 ≠ Mode.afterSf2 := by
  unfold flagStep
  split_ifs <;> simp

/-- The configuration parser preserves the suffix-state invariant from
any mode (with the primary suffix known to be set when inside the
optional-second-suffix window). -/
theorem parseLoop_suffix_inv (installed : String → Bool) :
    ∀ (args : List String) (m : Mode) (cfg cfg' : Config),
      SuffixInv cfg → (m = Mode.afterSf2 → cfg.suffix ≠ none) →
      parseLoop installed m cfg args = Except.ok cfg' → SuffixInv cfg' := by
  intro args
  induction args with
  | nil =>
      intro m cfg cfg' hinv hsf2 h
      cases m <;> simp only [parseLoop] at h <;>
        first
          | (injection h with h2; subst h2; exact hinv)
          | exact Except.noConfusion h
  | cons t ts ih =>
      intro m cfg cfg' hinv hsf2 h
      cases m with
      | top =>
          exact ih _ _ _ (flagStep_inv cfg t hinv)
            (fun hx => absurd hx (flagStep_snd_ne_afterSf2 cfg t)) h
      | afterSf1 =>
          simp only [parseLoop] at h
          split at h
          · exact Except.noConfusion h
          · exact ih _ _ _ ⟨by simp, by simp⟩ (fun _ => by simp) h
      | afterSf2 =>
          simp only [parseLoop] at h
          split at h
          · exact ih _ _ _ (flagStep_inv cfg t hinv)
              (fun hx => absurd hx (flagStep_snd_ne_afterSf2 cfg t)) h
          · refine ih _ _ _ ?_ ?_ h
            · exact ⟨hinv.1, fun _ => hsf2 rfl⟩
            · intro hx; exact absurd hx (by decide)
      | afterPk =>
          simp only [parseLoop] at h
          split at h
          · exact Except.noConfusion h
          · split at h
            · refine ih _ _ _ ?_ ?_ h
              · exact ⟨hinv.1, hinv.2⟩
              · intro hx; exact absurd hx (by decide)
            · exact Except.noConfusion h
      | skipPk =>
          simp only [parseLoop] at h
          split at h
          · exact ih _ _ _ (flagStep_inv cfg t hinv)
              (fun hx => absurd hx (flagStep_snd_ne_afterSf2 cfg t)) h
          · exact ih _ _ _ hinv (fun hx => absurd hx (by decide)) h
      | afterK =>
          simp only [parseLoop] at h
          split at h
          · split at h
            · refine ih _ _ _ ?_ ?_ h
              · exact ⟨hinv.1, hinv.2⟩
              · intro hx; exact absurd hx (by decide)
            · exact Except.noConfusion h
          · split at h
            · refine ih _ _ _ ?_ ?_ h
              · exact ⟨hinv.1, hinv.2⟩
              · intro hx; exact absurd hx (by decide)
            · exact Except.noConfusion h
      | skipK =>
          simp only [parseLoop] at h
          split at h
          · exact ih _ _ _ hinv (fun hx => absurd hx (by decide)) h
          · split at h
            · exact ih _ _ _ (flagStep_inv cfg t hinv)
                (fun hx => absurd hx (flagStep_snd_ne_afterSf2 cfg t)) h
            · exact ih _ _ _ hinv (fun hx => absurd hx (by decide)) h
      | afterKT =>
          simp only [parseLoop] at h
          split at h
          · split at h
            · exact ih _ _ _ hinv (fun hx => absurd hx (by decide)) h
            · exact Except.noConfusion h
          · exact Except.noConfusion h
      | skipOne =>
          exact ih _ _ _ hinv (fun hx => absurd hx (by decide)) h

/-- C5: the `SuffixState` invariant holds in every engine state
reachable through bootstrap: the enable flag is true iff at least one
suffix token is set, and a secondary suffix token is only set together
with the primary one.  (At most two suffix tokens exist at all:
`Config` tracks exactly the fields `suffix` and `suffix2`.) -/
theorem bootstrap_suffix_invariant (installed : String → Bool)
    (argv : List String) (st : EngineState)
    (h : bootstrap installed argv = Except.ok st) :
    (st.cfg.suffix_enable = true ↔ st.cfg.suffix ≠ none) ∧
    (st.cfg.suffix2 ≠ none → st.cfg.suffix ≠ none) := by
  unfold bootstrap at h
  cases hp : parseLoop installed Mode.top initConfig (argv.drop 1) with
  | error e => rw [hp] at h; exact Except.noConfusion h
  | ok cfg =>
      rw [hp] at h
      dsimp only at h
      have hcfg : SuffixInv cfg :=
        parseLoop_suffix_inv installed (argv.drop 1) Mode.top initConfig cfg
          ⟨by simp [initConfig], by simp [initConfig]⟩
          (fun hx => absurd hx (by decide)) hp
      by_cases hh : cfg.help = true
      · rw [if_pos hh] at h
        injection h with h2
        subst h2
        exact ⟨hcfg.1, hcfg.2⟩
      · rw [if_neg hh] at h
        injection h with h2
        subst h2
        exact ⟨hcfg.1, hcfg.2⟩

/-- Witness for `bootstrap_suffix_invariant` at the plain bootstrap. -/
theorem bootstrap_suffix_invariant_witness :
    (plainReadyState.cfg.suffix_enable = true ↔
      plainReadyState.cfg.suffix ≠ none) ∧
    (plainReadyState.cfg.suffix2 ≠ none →
      plainReadyState.cfg.suffix ≠ none) :=
  bootstrap_suffix_invariant installedSample ["LAMMPS_test"]
    plainReadyState rfl

/-- Parsing `n` repetitions of `-pk name` for an installed package
`name` adds exactly `n` to the package-invocation counter, raising no
error, whether starting at the top level or after a previous `-pk`
argument window. -/
theorem parseLoop_pkRepeat (installed : String → Bool) (name : String)
    (hinst : installed name = true) (hflag : isFlag name = false) :
    ∀ (n : Nat) (m : Mode) (cfg : Config),
      m = Mode.top ∨ m = Mode.skipPk →
      parseLoop installed m cfg (pkRepeat name n) =
        Except.ok { cfg with num_package := cfg.num_package + n } := by
  intro n
  induction n with
  | zero =>
      intro m cfg hm
      rcases hm with rfl | rfl <;> simp [pkRepeat, parseLoop]
  | succ n ih =>
      intro m cfg hm
      have hstep : parseLoop installed m cfg ("-pk" :: name :: pkRepeat name n) =
          parseLoop installed Mode.afterPk cfg (name :: pkRepeat name n) := by
        rcases hm with rfl | rfl <;> rfl
      rw [pkRepeat, hstep]
      simp only [parseLoop, hflag, hinst, Bool.false_eq_true, if_false, if_true]
      rw [ih Mode.skipPk _ (Or.inr rfl)]
      have hnum : cfg.num_package + 1 + n = cfg.num_package + (n + 1) := by omega
      simp [hnum]

/-- C6: each `-pk name` occurrence for an installed package increments
the package-invocation counter by exactly one and raises no
`UnavailablePackageError`: bootstrapping with `n` repetitions of
`-pk name` succeeds and yields `num_package = n` (so three repeats
yield 3, one yields 1, and none yields 0). -/
theorem pk_invocation_counter (installed : String → Bool) (name : String)
    (n : Nat) (hinst : installed name = true) (hflag : isFlag name = false) :
    (bootstrap installed ("LAMMPS_test" :: pkRepeat name n)).map
      (fun st => st.cfg.num_package) = Except.ok n := by
  unfold bootstrap
  rw [show ("LAMMPS_test" :: pkRepeat name n).drop 1 = pkRepeat name n from rfl]
  rw [parseLoop_pkRepeat installed name hinst hflag n Mode.top initConfig
    (Or.inl rfl)]
  simp [initConfig, Except.map]

/-- Witness for `pk_invocation_counter`: three repetitions of
`-pk omp` with the OpenMP package installed yield a counter of 3. -/
theorem pk_invocation_counter_witness :
    (bootstrap installedSample ("LAMMPS_test" :: pkRepeat "omp" 3)).map
      (fun st => st.cfg.num_package) = Except.ok 3 :=
  pk_invocation_counter installedSample "omp" 3 rfl rfl

end LammpsSpec
